import Mathlib

/-!
Verification of the SOBERANO kingdom-management engine.

Shallow embedding of the Python sources:
  - `src/rules.py`                    (RuleEngine.filtrar_viaveis)
  - `src/director.py`                 (DirectorInteligente)
  - `src/director_integration.py`     (EnhancedIntelligentDirector)
  - `src/inference.py`                (LLMDecisionEngine)
  - `src/engine.py`                   (monolithic GameEngine)
  - `src/engine/game_state.py`, `src/engine/tag_manager.py`,
    `src/engine/policy_manager.py`, `src/engine/event_manager.py`,
    `src/engine/game_over_checker.py`, `src/engine/core.py`
    (the packaged engine wired up by `main.py`)

Python dicts with string keys and integer values are modelled as
association lists `List (String × Int)`; `d.get(k, default)` becomes a
lookup with a default, `k in d` becomes `(List.lookup k d).isSome`, and
`d[k] = v` on an existing key becomes a key-preserving map.  Machine
randomness (`random.choice`) is modelled by passing the drawn index as an
explicit `Nat` parameter.  A call into the language model is modelled as an
`Except Unit (List Char)` oracle: `Except.error` stands for a raised
exception, `Except.ok text` for the generated text.
-/

/-- Dictionary of kingdom stats, as the Python dict `state['stats']`
(insertion ordered, string keys, integer values). -/
abbrev Stats : Type := List (String × Int)

/-- Python `stats.get(k, 0)` and (for keys that are present, as everywhere in
the engine) the direct read `stats[k]`. -/
def getStat (s : Stats) (k : String) : Int :=
  (List.lookup k s).getD 0

/-- Python `k in stats`. -/
def hasStat (s : Stats) (k : String) : Bool :=
  (List.lookup k s).isSome

/-- Python `stats[k] = v` on a key already present: rewrites the value in
place, leaving order and the other keys untouched (a write to an absent key
never happens on stats in the sources: every such write first reads the key,
which would raise `KeyError`). -/
def setStat (s : Stats) (k : String) (v : Int) : Stats :=
  s.map (fun p => if p.1 == k then (p.1, v) else p)

/-- Python `d[k] = v` on a dict where the key may be absent (used for
`blocked_policies`): overwrite if present, append otherwise. -/
def setKey (d : List (String × Int)) (k : String) (v : Int) :
    List (String × Int) :=
  if (List.lookup k d).isSome then d.map (fun p => if p.1 == k then (p.1, v) else p)
  else d ++ [(k, v)]

/-- Python `max(0, min(100, value))`, from `GameState.update_stat` and
`GameEngine._apply_limits`. -/
def clamp (v : Int) : Int := max 0 (min 100 v)

/-- Python method `GameState.update_stat` (src/engine/game_state.py, lines 40-46): if the
stat exists, set it to the clamped sum and report success; otherwise leave
the stats unchanged. -/
def update_stat (s : Stats) (k : String) (delta : Int) : Stats :=
  if hasStat s k then setStat s k (clamp (getStat s k + delta)) else s

/-- One option of an event (`options` entries of `events.json`).
`effect_tags` models `op.get('effect_tags', ...)`; an absent key behaves
exactly like the empty list in every reading of it.  `blocked` and
`block_reason` are the runtime-only annotations written by
`prepare_event_options` / `get_view_data`; static events carry the
defaults. -/
structure EvOption where
  id : String
  text : String := ""
  effect : List (String × Int) := []
  effect_tags : List String := []
  blocked : Bool := false
  block_reason : String := ""
deriving DecidableEq

/-- An event template.  The corpus has two key-naming generations: the
Portuguese one read by `rules.py` (`tema`, `gatilho_semantico`,
`peso_drama`) and the English one read by `engine/event_manager.py` and
`director_integration.py` (`theme`).  Both key families are modelled as
optional fields so that each module's `dict.get` default applies exactly as
in the source. -/
structure Event where
  id : Nat
  title : String := ""
  text : String := ""
  tema : Option String := none
  theme : Option String := none
  gatilho_semantico : List String := []
  peso_drama : Option Int := none
  options : List EvOption := []
deriving DecidableEq

/-- Python `ev.get('tema', 'geral')` (src/rules.py line 19). -/
def temaR (e : Event) : String := e.tema.getD ("geral")

/-- Python `ev.get('peso_drama', 0)` (src/rules.py line 51). -/
def pesoR (e : Event) : Int := e.peso_drama.getD 0

/-- Python `ev.get('theme', 'general')` (src/engine/event_manager.py
line 111). -/
def themeE (e : Event) : String := e.theme.getD ("general")

/-- The gamestate dict as read by `RuleEngine.filtrar_viaveis`:
`gamestate['stats']`, `gamestate.get('ultimos_temas', [])`,
`gamestate.get('tags_estado', [])`, `gamestate.get('tags_reputacao', [])`. -/
structure GS where
  stats : Stats
  ultimos_temas : List String := []
  tags_estado : List String := []
  tags_reputacao : List String := []
deriving DecidableEq

/-- Python `s['tesouro'] < 15` (src/rules.py line 15). -/
def is_falido (gs : GS) : Bool := getStat gs.stats ("tesouro") < 15

/-- Python `s['estabilidade'] < 15` (src/rules.py line 16). -/
def is_anarquia (gs : GS) : Bool := getStat gs.stats ("estabilidade") < 15

/-- Rule 1 of `filtrar_viaveis` (src/rules.py lines 21-24): in collapse,
block luxury (hubris) events. -/
def rejHubrisCrisis (gs : GS) (e : Event) : Bool :=
  (is_falido gs || is_anarquia gs) && temaR e == "hubris"

/-- Rule 2 of `filtrar_viaveis` (src/rules.py lines 26-30): resource
coherence for hubris and despair themes. -/
def rejResource (gs : GS) (e : Event) : Bool :=
  (temaR e == "hubris" && getStat gs.stats ("tesouro") < 60) ||
  (temaR e == "desespero" && getStat gs.stats ("tesouro") > 50)

/-- Python `lst[-2:]`. -/
def lastTwo (l : List String) : List String := l.drop (l.length - 2)

/-- Rule 3 of `filtrar_viaveis` (src/rules.py lines 32-36): anti-repetition
over the last two themes, with `game_over` and `gestao` exempt. -/
def rejRepeat (gs : GS) (e : Event) : Bool :=
  !gs.ultimos_temas.isEmpty &&
  !(temaR e == "game_over" || temaR e == "gestao") &&
  (lastTwo gs.ultimos_temas).contains (temaR e)

/-- Python `gamestate.get('tags_estado', []) + gamestate.get('tags_reputacao', [])`
(src/rules.py line 45). -/
def tagsAtuais (gs : GS) : List String := gs.tags_estado ++ gs.tags_reputacao

/-- Rule 4 of `filtrar_viaveis` (src/rules.py lines 38-52): an event that
declares semantic triggers is rejected when none of them is among the
current tags and its drama weight is at least 80. -/
def rejTrigger (gs : GS) (e : Event) : Bool :=
  !e.gatilho_semantico.isEmpty &&
  !(e.gatilho_semantico.any (fun r => (tagsAtuais gs).contains r)) &&
  pesoR e ≥ 80

/-- An event survives `filtrar_viaveis`'s per-event loop exactly when no
rule short-circuits it with `continue`. -/
def viable (gs : GS) (e : Event) : Bool :=
  !rejHubrisCrisis gs e && !rejResource gs e && !rejRepeat gs e && !rejTrigger gs e

/-- Python method `RuleEngine.filtrar_viaveis` (src/rules.py lines 8-56): the surviving
events, in catalog order. -/
def filtrar_viaveis (lista_eventos : List Event) (gs : GS) : List Event :=
  lista_eventos.filter (viable gs)

/-- Python `random.choice(l)` with the drawn position passed explicitly:
index `rng % l.length` of the list, `none` when the list is empty (where
Python raises `IndexError`).  Every element is picked by some `rng` and no
element outside the list is ever produced, which is all the theorems below
use about uniform choice. -/
def random_choice (l : List Event) (rng : Nat) : Option Event :=
  l[rng % l.length]?

/-- Python method `EnhancedIntelligentDirector._choose_static_event`
(src/director_integration.py lines 321-375).  Its `try` block first calls
`RuleEngine.filter_viable`, but `src/rules.py` defines only
`filtrar_viaveis`, so the call raises `AttributeError` on every invocation;
the surrounding `except` (lines 372-375) then returns
`random.choice(self.all_events)`.  The same uniform choice over the whole
catalog is also what the explicit empty-filter branch (lines 336-338,
`return random.choice(self.all_events)`) performs, so the function reduces
to a uniform draw from the catalog in either reading; no branch prefers
`management`-themed (`gestao`) events. -/
def choose_static_event (all_events : List Event) (rng : Nat) : Option Event :=
  random_choice all_events rng

/-- A toggleable law from `policies.json`.  Optional dict keys
(`passive_effect`, `activation_cost`, `permanent_tags`, `aversion`,
`incompatible_with`) are modelled as lists defaulting to empty: every read
in the sources either guards with `'key' in pol` before iterating or uses
`.get(key, {})`, and an absent key is observationally the empty
collection. -/
structure Policy where
  id : String
  name : String := ""
  category : String := ""
  passive_effect : List (String × Int) := []
  activation_cost : List (String × Int) := []
  permanent_tags : List String := []
  aversion : List String := []
  incompatible_with : List String := []
deriving DecidableEq

/-- The loaded data (`DB` in main.py): event catalog, policy catalog and
config blob. -/
structure DB where
  events : List Event := []
  policies : List Policy := []
  config : List (String × Int) := []
deriving DecidableEq

/-- Python `next((p for p in db['policies'] if p['id'] == pid), None)`. -/
def findPolicy (db : DB) (pid : String) : Option Policy :=
  db.policies.find? (fun p => p.id == pid)

/-- Python `next((e for e in db['events'] if str(e['id']) == str(event_id)), None)`. -/
def findEvent (db : DB) (eid : Nat) : Option Event :=
  db.events.find? (fun e => e.id == eid)

/-- Python `db['config'].get('default_lock_turns', 8)`. -/
def default_lock_turns (db : DB) : Int :=
  (List.lookup ("default_lock_turns") db.config).getD 8

/-- The engine session state: the `self.state` dict of
`GameState` (src/engine/game_state.py) and of the monolithic
`GameEngine.__init__` (src/engine.py); the monolith stores two extra stats
(`agriculture`, `commerce`) inside the same `stats` dict. -/
structure EngState where
  turn : Int := 1
  stats : Stats := []
  active_policies : List String := []
  blocked_policies : List (String × Int) := []
  event_tags : List String := []
  state_tags : List String := []
  decision_memory : List String := []
  log : List String := []
  last_event : Option Event := none
  game_over : Bool := false
  stats_history : List Stats := []
  theme_history : List String := []
deriving DecidableEq

/-- Python method `TagManager.calculate_state_tags` (src/engine/tag_manager.py lines
11-35) and, identically, `GameEngine.update_tags` (src/engine.py lines
36-54): the state tags recomputed from stat thresholds.  The Python code
clears the tag list and appends each tag (skipping duplicates; none occur
by construction). -/
def calc_state_tags (s : Stats) : List String :=
  (if getStat s ("treasury") > 75 then ["midas", "rich"]
   else if getStat s ("treasury") < 10 then ["bankrupt", "poor"]
   else if getStat s ("treasury") < 25 then ["poor"] else []) ++
  (if getStat s ("military") > 75 then ["spartan"]
   else if getStat s ("military") < 25 then ["vulnerable"] else []) ++
  (if getStat s ("popularity") < 25 then ["unpopular", "hated", "oppressor"]
   else if getStat s ("popularity") > 75 then ["beloved"] else []) ++
  (if getStat s ("stability") < 25 then ["chaos"] else [])

/-- The `permanent_tags` contributed by one active policy id:
`pol['permanent_tags']` when the policy is found and has the key, nothing
otherwise (`TagManager.get_law_tags`, src/engine/tag_manager.py lines
37-47). -/
def lawTagsOf (db : DB) (pid : String) : List String :=
  match findPolicy db pid with
  | some p => p.permanent_tags
  | none => []

/-- Python method `TagManager.get_law_tags`: the concatenation, in order, of the
permanent tags of the currently active policies. -/
def get_law_tags (db : DB) (active : List String) : List String :=
  (active.map (lawTagsOf db)).flatten

/-- Python method `TagManager.get_reputation_tags` (src/engine/tag_manager.py lines
49-55) and, identically, `GameEngine.get_reputation_tags` (src/engine.py
lines 56-68): `list(set(event_tags + law_tags))`.  Python's `set` fixes no
element order; `dedup` has the same membership and no duplicates, and the
theorems below use membership only. -/
def get_reputation_tags (db : DB) (st : EngState) : List String :=
  (st.event_tags ++ get_law_tags db st.active_policies).dedup

/-- The `cost_base` of toggling a policy (src/engine/policy_manager.py
lines 108-111 and src/engine.py lines 300-302): 10, doubled when any
reputation tag lies in the policy's aversion list. -/
def toggle_cost (db : DB) (st : EngState) (pol : Policy) : Int :=
  if (get_reputation_tags db st).any (fun t => pol.aversion.contains t) then 20 else 10

/-- Python `any(state['stats'].get(stat, 0) + amount < 0 for ...)` over the
activation cost: the enact-time validation loop (src/engine/policy_manager.py
lines 126-129 and src/engine.py lines 316-319). -/
def cost_unaffordable (s : Stats) (cost : List (String × Int)) : Bool :=
  cost.any (fun kv => getStat s kv.1 + kv.2 < 0)

/-- Applying the activation cost through `GameState.update_stat`
(src/engine/policy_manager.py lines 131-133). -/
def apply_cost (s : Stats) (cost : List (String × Int)) : Stats :=
  cost.foldl (fun acc kv => update_stat acc kv.1 kv.2) s

/-- State after the revoke branch (src/engine/policy_manager.py line 121 and
src/engine.py line 310): `active_policies.remove(pid)` drops the first
occurrence. -/
def revoke_policy (st : EngState) (pid : String) : EngState :=
  { st with active_policies := st.active_policies.erase pid }

/-- State after the enact branch body (src/engine/policy_manager.py lines
131-137): pay the activation cost (clamped through `update_stat`), append
the policy to the active list and start its lock-in cooldown. -/
def enact_policy (db : DB) (st : EngState) (pid : String) (pol : Policy) : EngState :=
  { st with
    stats := apply_cost st.stats pol.activation_cost,
    active_policies := st.active_policies ++ [pid],
    blocked_policies := setKey st.blocked_policies pid (default_lock_turns db) }

/-- The common tail of `PolicyManager.toggle_policy` (lines 139-141): pay
the stability cost through `update_stat` (clamped) and log the message. -/
def finish_toggle (st : EngState) (cost : Int) (msg : String) : EngState :=
  { st with
    stats := update_stat st.stats ("stability") (-cost),
    log := st.log ++ [msg] }

/-- Python method `PolicyManager.toggle_policy` (src/engine/policy_manager.py lines
96-143), the packaged engine's toggle: guards in source order, then the
revoke or enact branch, then the stability cost and log line. -/
def toggle_policy (db : DB) (st : EngState) (pid : String) : Except String EngState :=
  if st.game_over then Except.error ("Game Over")
  else
    match findPolicy db pid with
    | none => Except.error ("Invalid Law")
    | some pol =>
      if getStat st.stats ("stability") < toggle_cost db st pol then
        Except.error ("Insufficient Stability")
      else if st.active_policies.contains pid then
        Except.ok (finish_toggle (revoke_policy st pid) (toggle_cost db st pol)
          ("Revoked: " ++ pol.name))
      else if cost_unaffordable st.stats pol.activation_cost then
        Except.error ("Lacks resources")
      else
        Except.ok (finish_toggle (enact_policy db st pid pol) (toggle_cost db st pol)
          ("Enacted: " ++ pol.name))

/-- The direct clamped dict write `stats[k] = _apply_limits(stats[k] + v)`
of the monolithic engine (src/engine.py lines 322-323): unlike
`update_stat` it reads the key unconditionally (a missing key would raise
`KeyError` in Python; every key written this way is present in the
monolith's stats). -/
def apply_limits_write (s : Stats) (k : String) (v : Int) : Stats :=
  setStat s k (clamp (getStat s k + v))

/-- The monolith's enact branch (src/engine.py lines 314-327). -/
def enact_policy_mono (db : DB) (st : EngState) (pid : String) (pol : Policy) : EngState :=
  { st with
    stats := pol.activation_cost.foldl (fun acc kv => apply_limits_write acc kv.1 kv.2) st.stats,
    active_policies := st.active_policies ++ [pid],
    blocked_policies := setKey st.blocked_policies pid (default_lock_turns db) }

/-- The common tail of the monolithic `GameEngine.toggle_policy`
(src/engine.py lines 329-331): `self.state['stats']['stability'] -= cost_base`
-- a raw subtraction, NOT routed through `_apply_limits` -- followed by the
log line and `update_tags()`. -/
def finish_toggle_mono (st : EngState) (cost : Int) (msg : String) : EngState :=
  { st with
    stats := setStat st.stats ("stability") (getStat st.stats ("stability") - cost),
    log := st.log ++ [msg],
    state_tags := calc_state_tags (setStat st.stats ("stability")
      (getStat st.stats ("stability") - cost)) }

/-- The monolithic `GameEngine.toggle_policy` (src/engine.py lines
292-333). -/
def toggle_policy_mono (db : DB) (st : EngState) (pid : String) : Except String EngState :=
  if st.game_over then Except.error ("Game Over")
  else
    match findPolicy db pid with
    | none => Except.error ("Invalid Law")
    | some pol =>
      if getStat st.stats ("stability") < toggle_cost db st pol then
        Except.error ("Insufficient Stability")
      else if st.active_policies.contains pid then
        Except.ok (finish_toggle_mono (revoke_policy st pid) (toggle_cost db st pol)
          ("Revoked: " ++ pol.name))
      else if cost_unaffordable st.stats pol.activation_cost then
        Except.error ("Lacks resources")
      else
        Except.ok (finish_toggle_mono (enact_policy_mono db st pid pol) (toggle_cost db st pol)
          ("Enacted: " ++ pol.name))

/-- Python method `EventManager.validate_option_resources` (src/engine/event_manager.py
lines 12-23) and the identical double-check of src/engine.py lines 232-237:
an option is affordable when no negative delta would push its stat (read
with `.get(stat, 0)`) below zero. -/
def validate_option_resources (s : Stats) (op : EvOption) : Bool :=
  op.effect.all (fun kv => !(kv.2 < 0 && getStat s kv.1 + kv.2 < 0))

/-- The `block_reason` string computed for the first unaffordable cost
(src/engine/event_manager.py line 21; Python also capitalizes the stat
name, a display detail kept as the raw key here). -/
def resource_reason (s : Stats) (op : EvOption) : String :=
  match op.effect.find? (fun kv => kv.2 < 0 && getStat s kv.1 + kv.2 < 0) with
  | some kv => "Requires " ++ toString (-kv.2) ++ " " ++ kv.1
  | none => ""

/-- One option annotated by the blocking loop of `prepare_event_options`
(src/engine/event_manager.py lines 34-42): `blocked`/`block_reason` are
(re)written from the resource validation. -/
def annotate_option (s : Stats) (op : EvOption) : EvOption :=
  if validate_option_resources s op then
    { op with blocked := false, block_reason := "" }
  else
    { op with blocked := true, block_reason := resource_reason s op }

/-- The synthesized escape option injected by the anti-softlock valve
(src/engine/event_manager.py lines 46-52 and src/engine.py lines 95-101). -/
def collapse_option : EvOption :=
  { id := "COLLAPSE",
    text := "[NO RESOURCES] The government paralyzes...",
    effect := [("stability", -15), ("popularity", -10)],
    blocked := false,
    block_reason := "Only available exit" }

/-- Python method `EventManager.prepare_event_options` (src/engine/event_manager.py lines
25-52), as the resulting option list of the event: the game-over event
(id 99999) is returned untouched; otherwise every option is annotated with
its blocking state, and when all of them are blocked the `COLLAPSE` escape
option is appended. -/
def prepare_event_options (s : Stats) (ev : Event) : List EvOption :=
  if ev.id == 99999 then ev.options
  else
    if (ev.options.map (annotate_option s)).all (fun o => o.blocked) then
      ev.options.map (annotate_option s) ++ [collapse_option]
    else
      ev.options.map (annotate_option s)

/-- Python method `GameState.add_to_theme_history` (src/engine/game_state.py lines
89-93): append, then drop the oldest entry when the length exceeds 8. -/
def add_to_theme_history (hist : List String) (theme' : String) : List String :=
  if (hist ++ [theme']).length > 8 then (hist ++ [theme']).tail else hist ++ [theme']

/-- Python method `GameState.add_to_decision_memory` (src/engine/game_state.py lines
95-99): append, bounded to 12 entries. -/
def add_to_decision_memory (mem : List String) (txt : String) : List String :=
  if (mem ++ [txt]).length > 12 then (mem ++ [txt]).tail else mem ++ [txt]

/-- Python method `GameState.add_event_tag` applied to each tag of `op['effect_tags']`
(src/engine/event_manager.py lines 99-103): append each tag not already
present, keeping order. -/
def add_event_tags (cur : List String) (tags : List String) : List String :=
  tags.foldl (fun acc t => if acc.contains t then acc else acc ++ [t]) cur

/-- The decision-memory line built at resolution
(src/engine/event_manager.py lines 106-107).  The Python f-string wraps the
option text and title in single quote characters; those two characters are
elided here (string contents are never inspected by a theorem). -/
def decision_text (turn : Int) (evTitle opText : String) (tags : List String) : String :=
  "Year " ++ toString turn ++ ": Chose " ++ opText ++ " in " ++ evTitle ++
  (if tags.isEmpty then "" else " [" ++ String.intercalate (", ") tags ++ "]") ++ "."

/-- Python method `GameState.reset` (src/engine/game_state.py lines 12-30) followed by
`calculate_state_tags` as in the reset path of `resolve_event`; the initial
all-50 stats produce no state tags, but the recomputation is kept
explicit. -/
def reset_state (_db : DB) : EngState :=
  { turn := 1,
    stats := [("treasury", 50), ("military", 50), ("popularity", 50), ("stability", 50)],
    active_policies := ["serfdom", "absolutism"],
    blocked_policies := [],
    event_tags := [],
    state_tags := calc_state_tags
      [("treasury", 50), ("military", 50), ("popularity", 50), ("stability", 50)],
    decision_memory := [],
    log := ["The Director: The history begins..."],
    last_event := none,
    game_over := false,
    stats_history := [],
    theme_history := [] }

/-- Outcome payload of `EventManager.resolve_event`: the returned status
dict collapsed to its discriminating cases. -/
inductive RStatus where
  | reset
  | ok
  | error (msg : String)
deriving DecidableEq

/-- The event looked up by `resolve_event` (src/engine/event_manager.py
lines 72-78): the pending event when the id matches, otherwise the first
catalog event with that id. -/
def lookup_resolving_event (db : DB) (st : EngState) (event_id : Nat) : Option Event :=
  match st.last_event with
  | some le => if le.id == event_id then some le else findEvent db event_id
  | none => findEvent db event_id

/-- Python method `EventManager.resolve_event` (src/engine/event_manager.py lines
54-119): reset, collapse, lookup with catalog fallback, option lookup,
resource double-check, then effects, tags, memories, theme history, log and
clearing of the pending event. -/
def resolve_event (db : DB) (st : EngState) (event_id : Nat) (option_id : String) :
    EngState × RStatus :=
  if event_id == 99999 || option_id == "RESET" then
    (reset_state db, RStatus.reset)
  else if option_id == "COLLAPSE" then
    ({ st with
        stats := update_stat (update_stat st.stats ("stability") (-15)) ("popularity") (-10),
        log := st.log ++ ["Decision: The government failed to act. Chaos rises."],
        last_event := none }, RStatus.ok)
  else
    match lookup_resolving_event db st event_id with
    | none => (st, RStatus.error ("Event not found"))
    | some ev =>
      match ev.options.find? (fun o => o.id == option_id) with
      | none => (st, RStatus.error ("Option not found"))
      | some op =>
        if validate_option_resources st.stats op then
          ({ st with
              stats := op.effect.foldl (fun acc kv => update_stat acc kv.1 kv.2) st.stats,
              event_tags := add_event_tags st.event_tags op.effect_tags,
              decision_memory := add_to_decision_memory st.decision_memory
                (decision_text st.turn ev.title op.text op.effect_tags),
              theme_history := add_to_theme_history st.theme_history (themeE ev),
              log := st.log ++ ["Decision: " ++ op.text],
              last_event := none }, RStatus.ok)
        else (st, RStatus.error (resource_reason st.stats op))

/-- The terminal-cause scan of `GameOverChecker.check_game_over`
(src/engine/game_over_checker.py lines 17-27), first matching cause
wins. -/
def game_over_cause (s : Stats) : Option String :=
  if getStat s ("stability") ≤ 0 then some ("Total Anarchy. The realm collapsed.")
  else if getStat s ("popularity") ≤ 0 then some ("Popular Revolution. The guillotine awaits.")
  else if getStat s ("military") ≤ 0 then some ("External Conquest.")
  else if getStat s ("treasury") ≤ 0 && getStat s ("military") < 20 then
    some ("State bankrupt and defenseless.")
  else none

/-- The synthetic final event (src/engine/game_over_checker.py lines
33-40). -/
def death_event (cause : String) : Event :=
  { id := 99999,
    title := "THE END OF THE DYNASTY",
    text := cause,
    theme := some ("game_over"),
    options := [{ id := "RESET", text := "Start New History" }] }

/-- Python method `GameOverChecker.check_game_over` (src/engine/game_over_checker.py
lines 10-43): sticky once set; on a fresh cause, set the flag, log, and
install the final event. -/
def check_game_over (st : EngState) : EngState × Bool :=
  if st.game_over then (st, true)
  else
    match game_over_cause st.stats with
    | some cause =>
      ({ st with
          game_over := true,
          log := st.log ++ ["--- END OF THE LINE: " ++ cause ++ " ---"],
          last_event := some (death_event cause) }, true)
    | none => (st, false)

/-- Python method `PolicyManager.apply_passive_effects` (src/engine/policy_manager.py
lines 75-83): each active policy's passive deltas through `update_stat`. -/
def apply_passive_effects (db : DB) (active : List String) (s : Stats) : Stats :=
  active.foldl (fun acc pid =>
    match findPolicy db pid with
    | some pol => pol.passive_effect.foldl (fun a kv => update_stat a kv.1 kv.2) acc
    | none => acc) s

/-- Python method `PolicyManager.update_cooldowns` (src/engine/policy_manager.py lines
85-94): decrement each lock counter, dropping entries that reach zero. -/
def update_cooldowns (blocked : List (String × Int)) : List (String × Int) :=
  blocked.filterMap (fun kv => if kv.2 > 1 then some (kv.1, kv.2 - 1) else none)

/-- Python `lst.append(x)` then `if len(lst) > 5: lst.pop(0)` for the stats
history (src/engine/core.py lines 59-61). -/
def push_stats_history (hist : List Stats) (s : Stats) : List Stats :=
  if (hist ++ [s]).length > 5 then (hist ++ [s]).tail else hist ++ [s]

/-- Result status of `process_turn`. -/
inductive TStatus where
  | ok
  | game_over
deriving DecidableEq

/-- Python method `GameEngine.process_turn` of the packaged engine (src/engine/core.py
lines 51-93).  The director call is modelled by the `chosen` parameter: the
event returned by `EnhancedIntelligentDirector.choose_event`, which only
reads the snapshot it is handed (no statement in
src/director_integration.py assigns to the gamestate's `theme_history` or
`last_themes`, or to any other engine-owned field). -/
def process_turn (db : DB) (st : EngState) (chosen : Event) : EngState × TStatus :=
  if st.game_over then (st, TStatus.game_over)
  else
    let st₁ := { st with stats_history := push_stats_history st.stats_history st.stats }
    let st₂ := { st₁ with turn := st₁.turn + 1 }
    let st₃ := { st₂ with stats := apply_passive_effects db st₂.active_policies st₂.stats }
    let st₄ := { st₃ with blocked_policies := update_cooldowns st₃.blocked_policies }
    let st₅ := { st₄ with state_tags := calc_state_tags st₄.stats }
    let st₆ := { st₅ with last_event := some chosen }
    let st₇ := { st₆ with log := st₆.log ++ ["--- Year " ++ toString st₆.turn ++ " ---"] }
    let r := check_game_over st₇
    (r.1, if r.2 then TStatus.game_over else TStatus.ok)

/-- The word characters of Python's `\b` boundary (ASCII range; the model
replies are ASCII). -/
def isWordChar (c : Char) : Bool := c.isAlphanum || c == '_'

/-- Leading digit run of a character list (the greedy `\d+`). -/
def digitRun (cs : List Char) : List Char := cs.takeWhile (fun c => c.isDigit)

/-- Python `int(...)` on a non-empty digit string. -/
def digitsToNat (ds : List Char) : Nat :=
  ds.foldl (fun n c => n * 10 + (c.toNat - 48)) 0

/-- The `#?(\d+)` tail of the marker regex, tried at one position: an
optional hash, then one or more digits (captured greedily). -/
def hashDigitsAt (cs : List Char) : Option (List Char) :=
  match cs with
  | [] => none
  | c :: rest =>
    if c.isDigit then some (digitRun (c :: rest))
    else if c == '#' then
      match rest with
      | [] => none
      | r :: _ => if r.isDigit then some (digitRun rest) else none
    else none

/-- The lazy `.*?#?(\d+)` continuation of the marker regex: `.` does not
cross a newline (no DOTALL flag), and laziness takes the first position at
which `#?(\d+)` matches. -/
def lazyDigits : List Char → Option (List Char)
  | [] => none
  | c :: rest =>
    match hashDigitsAt (c :: rest) with
    | some ds => some ds
    | none => if c == '\n' then none else lazyDigits rest

/-- The characters of the marker literal `Escolha:`, lowercased for the
`re.IGNORECASE` flag. -/
def markerChars : List Char := "escolha:".toList

/-- Case-insensitive literal match of the marker at the head of `cs`. -/
def markerAt (cs : List Char) : Bool :=
  (cs.take markerChars.length).map Char.toLower == markerChars

/-- Model of `re.search(r'Escolha:.*?#?(\d+)', text, re.IGNORECASE)` followed by
`int(match.group(1))` (src/inference.py lines 59 and 69): scan start
positions left to right; at each occurrence of the marker, look for the
lazily-first digit group on the same line; if none, keep scanning. -/
def find_marker_num : List Char → Option Nat
  | [] => none
  | c :: rest =>
    if markerAt (c :: rest) then
      match lazyDigits ((c :: rest).drop markerChars.length) with
      | some ds => some (digitsToNat ds)
      | none => find_marker_num rest
    else find_marker_num rest

/-- Model of `re.findall(r'\b(\d+)\b', text)` (src/inference.py line 63): the
maximal digit runs whose neighbours on both sides are non-word characters
or the text edges, in order.  `cur` carries the digits (reversed) of a run
in progress that started at a valid boundary; `prevWord` tells whether the
previous character was a word character. -/
def standalone_nums : Option (List Char) → Bool → List Char → List (List Char)
  | cur, _, [] =>
    (match cur with
     | some ds => [ds.reverse]
     | none => [])
  | cur, prevWord, c :: rest =>
    if c.isDigit then
      match cur with
      | some ds => standalone_nums (some (c :: ds)) true rest
      | none =>
        if prevWord then standalone_nums none true rest
        else standalone_nums (some [c]) true rest
    else
      match cur with
      | some ds =>
        if isWordChar c then standalone_nums none true rest
        else ds.reverse :: standalone_nums none false rest
      | none => standalone_nums none (isWordChar c) rest

/-- The fallback of `_extrair_decisao` (src/inference.py lines 62-65): the
last standalone number in the text, as a natural number. -/
def last_standalone (text : List Char) : Option Nat :=
  (standalone_nums none false text).getLast?.map digitsToNat

/-- Python method `LLMDecisionEngine._extrair_decisao` (src/inference.py lines 56-75):
prefer the explicit marker (even if its index then turns out invalid), fall
back to the last standalone number, map the 1-based index into the
shortlist, and signal failure with `none` on an absent or out-of-range
index. -/
def extrair_decisao (text : List Char) (candidatos : List Event) : Option Event :=
  let n? : Option Nat :=
    match find_marker_num text with
    | some n => some n
    | none => last_standalone text
  match n? with
  | none => none
  | some n => if n == 0 then none else candidatos[n - 1]?

/-- Python method `LLMDecisionEngine.selecionar_evento` (src/inference.py lines 13-54).
The model handle and its call are collapsed into one oracle argument:
`none` models `self.llm is None`; `some (Except.error ())` models the
model call raising (absorbed by the `except` into `None`); `some
(Except.ok text)` models a reply, handed to `_extrair_decisao`.  The
function is total: no outcome of the model call escapes as an exception. -/
def selecionar_evento (llm : Option (Except Unit (List Char))) (candidatos : List Event) :
    Option Event :=
  match llm, candidatos with
  | none, _ => none
  | _, [] => none
  | some (Except.error _), _ => none
  | some (Except.ok text), cands => extrair_decisao text cands

/-! Concrete inputs used by the counterexamples and witnesses below. -/

/-- A management-themed event (theme `gestao` in the Portuguese key family
read by rules.py) that declares an unmet high-drama trigger. -/
def ev_mgmt : Event :=
  { id := 1, tema := some ("gestao"), gatilho_semantico := ["tirano"],
    peso_drama := some 80 }

/-- A war-themed event. -/
def ev_war : Event := { id := 2, tema := some ("guerra") }

/-- A gamestate on which `filtrar_viaveis` rejects both `ev_mgmt` (rule 4)
and `ev_war` (rule 3). -/
def gs_cex : GS :=
  { stats := [("tesouro", 50), ("estabilidade", 50)], ultimos_temas := ["guerra"] }

/-- A hubris-themed event. -/
def ev_hub : Event := { id := 3, tema := some ("hubris") }

/-- A gamestate with treasury below 15. -/
def gs_poor : GS := { stats := [("tesouro", 10), ("estabilidade", 50)] }

/-- A management-themed event with no triggers. -/
def ev_mgmt_plain : Event := { id := 4, tema := some ("gestao") }

/-- A low-drama event with an unmet semantic trigger. -/
def ev_soft : Event :=
  { id := 6, tema := some ("intriga"), gatilho_semantico := ["rebelde"],
    peso_drama := some 79 }

/-- A neutral gamestate with empty histories and tags. -/
def gs_neutral : GS := { stats := [("tesouro", 50), ("estabilidade", 50)] }

/-- A policy whose activation cost drains 45 stability. -/
def pol_feast : Policy :=
  { id := "grand_feast", name := "Grand Feast", activation_cost := [("stability", -45)] }

/-- A database holding only `pol_feast`. -/
def db_feast : DB := { policies := [pol_feast] }

/-- The monolithic engine's initial state (`GameEngine.__init__`,
src/engine.py lines 9-30, including the `update_tags()` call). -/
def st_mono : EngState :=
  { turn := 1,
    stats := [("treasury", 50), ("military", 50), ("popularity", 50),
              ("stability", 50), ("agriculture", 50), ("commerce", 50)],
    active_policies := ["serfdom", "absolutism"],
    log := ["The Director: The history begins..."],
    state_tags := calc_state_tags
      [("treasury", 50), ("military", 50), ("popularity", 50),
       ("stability", 50), ("agriculture", 50), ("commerce", 50)] }

/-- A policy granting the permanent tag `tyrant`. -/
def pol_iron : Policy :=
  { id := "iron_fist", name := "Iron Fist", permanent_tags := ["tyrant"] }

/-- A database holding only `pol_iron`. -/
def db_iron : DB := { policies := [pol_iron] }

/-- A fresh packaged-engine state with no active policies. -/
def st_iron : EngState := { reset_state db_iron with active_policies := [] }

/-- The state after enacting `iron_fist` on `st_iron` (extracted from the
toggle result; the toggle succeeds, as the witness proves). -/
def st_iron₂ : EngState :=
  match toggle_policy db_iron st_iron ("iron_fist") with
  | Except.ok s => s
  | Except.error _ => st_iron

/-- The state after revoking `iron_fist` again. -/
def st_iron₃ : EngState :=
  match toggle_policy db_iron st_iron₂ ("iron_fist") with
  | Except.ok s => s
  | Except.error _ => st_iron₂

/-- Shortlist entry with a given id, for the arbiter theorems. -/
def mkEv (n : Nat) : Event := { id := n }

/-- A five-event shortlist. -/
def cands₅ : List Event := [mkEv 101, mkEv 102, mkEv 103, mkEv 104, mkEv 105]

/-- A model reply with an explicit selection marker. -/
def reply_marker : List Char := "Pondero as escolhas do reino.\nEscolha: #3".toList

/-- A model reply with no marker whose last standalone number is 2. -/
def reply_last : List Char := "Talvez 1, mas o evento 2 parece melhor".toList

/-- A model reply with an out-of-range selection. -/
def reply_oor : List Char := "Escolha: 9".toList

/-- An event both of whose options cost more treasury than any state below
could pay. -/
def ev_block : Event :=
  { id := 7,
    options := [{ id := "A", effect := [("treasury", -200)] },
                { id := "B", effect := [("treasury", -200)] }] }

/-- An option paying 10 treasury and granting a tag. -/
def op_res : EvOption :=
  { id := "A", text := "Pagar", effect := [("treasury", -10)],
    effect_tags := ["generous"] }

/-- An event resolvable from the catalog, with one tagged option. -/
def ev_res : Event :=
  { id := 42, title := "A Feira", theme := some ("war"), options := [op_res] }

/-- A pending event distinct from `ev_res`. -/
def ev_pending : Event := { id := 7 }

/-- A database holding only `ev_res`. -/
def db_res : DB := { events := [ev_res] }

/-- A fresh state whose pending event is `ev_pending` (id 7), not
`ev_res` (id 42). -/
def st_res : EngState := { reset_state db_res with last_event := some ev_pending }

/-- An event chosen by the director, for the turn-processing theorems. -/
def ev_chosen : Event := { id := 5, theme := some ("war") }

/-- The state reached by resolving `ev_res` option `A` on `st_res`. -/
def st_res₂ : EngState := (resolve_event db_res st_res 42 ("A")).1

/-! Theorems. -/

/-- Membership in the law tags is membership in some active policy's
permanent tags. -/
theorem mem_law_tags_iff (db : DB) (active : List String) (T : String) :
    T ∈ get_law_tags db active ↔ ∃ qid ∈ active, T ∈ lawTagsOf db qid := by
  rw [get_law_tags]
  simp [List.mem_flatten]

/-- Claim C4: RuleFilter soundness for hubris.  For every game state whose
treasury is below 15 and every event catalog, no event themed `hubris`
appears in the output of `filtrar_viaveis`, even if such events are present
in the input and pass every other rule (rule 1 fires on the bankruptcy
flag alone). -/
theorem hubris_filtered_when_bankrupt :
    ∀ (evs : List Event) (gs : GS), getStat gs.stats ("tesouro") < 15 →
      ∀ e ∈ filtrar_viaveis evs gs, temaR e ≠ "hubris" := by
  intro evs gs h e he heq
  have hv : viable gs e = true := (List.mem_filter.mp he).2
  simp [viable, rejHubrisCrisis, is_falido, heq, h] at hv

/-- Witness for C4 at a concrete bankrupt state and hubris event. -/
theorem hubris_filtered_when_bankrupt_witness :
    getStat gs_poor.stats ("tesouro") < 15 ∧
    (∀ e ∈ filtrar_viaveis [ev_hub] gs_poor, temaR e ≠ "hubris") :=
  ⟨by decide, hubris_filtered_when_bankrupt [ev_hub] gs_poor (by decide)⟩

/-- Claim C5: anti-repetition with exemptions.  An event whose (rules.py)
theme appears among the last 2 entries of the theme history is rejected by
`filtrar_viaveis` unless that theme is `game_over` or `gestao` (the code's
spelling of the spec's "management"); and the anti-repetition rule itself
never fires for those two exempt themes. -/
theorem anti_repetition_exemptions :
    (∀ (evs : List Event) (gs : GS) (e : Event), e ∈ evs →
      temaR e ∈ lastTwo gs.ultimos_temas →
      temaR e ≠ "game_over" → temaR e ≠ "gestao" →
      e ∉ filtrar_viaveis evs gs) ∧
    (∀ (gs : GS) (e : Event), temaR e = "game_over" ∨ temaR e = "gestao" →
      rejRepeat gs e = false) := by
  constructor
  · intro evs gs e _ hmem hgo hge hin
    have hv : viable gs e = true := (List.mem_filter.mp hin).2
    have hne : gs.ultimos_temas ≠ [] := by
      intro hnil
      rw [hnil] at hmem
      simp [lastTwo] at hmem
    simp [viable, rejRepeat, hgo, hge, hmem, List.isEmpty_eq_false.mpr hne] at hv
  · intro gs e h
    rcases h with h | h <;> simp [rejRepeat, h]

/-- Witness for C5: on `gs_cex` (history ending in `guerra`) the war event
is filtered out, while the anti-repetition rule lets a `gestao` event
through even with `gestao` in the recent history. -/
theorem anti_repetition_exemptions_witness :
    ev_war ∉ filtrar_viaveis [ev_mgmt, ev_war] gs_cex ∧
    rejRepeat { gs_cex with ultimos_temas := ["gestao", "gestao"] } ev_mgmt_plain = false :=
  ⟨anti_repetition_exemptions.1 [ev_mgmt, ev_war] gs_cex ev_war (by decide) (by decide)
      (by decide) (by decide),
   anti_repetition_exemptions.2 _ ev_mgmt_plain (Or.inr (by decide))⟩

/-- Claim C6: semantic-trigger soft gate.  For an event that passes rules
1-3, membership in the filter output fails exactly when the event declares
trigger tags, none of them is in the union of state tags and reputation
tags, and its drama weight is at least 80; in particular an event with
unmet triggers and drama weight below 80 is not rejected by this rule. -/
theorem semantic_trigger_soft_gate :
    ∀ (evs : List Event) (gs : GS) (e : Event), e ∈ evs →
      rejHubrisCrisis gs e = false → rejResource gs e = false → rejRepeat gs e = false →
      (e ∈ filtrar_viaveis evs gs ↔
        ¬(e.gatilho_semantico ≠ [] ∧ (∀ r ∈ e.gatilho_semantico, r ∉ tagsAtuais gs) ∧
          80 ≤ pesoR e)) := by
  intro evs gs e he h1 h2 h3
  have hiff : rejTrigger gs e = true ↔
      (e.gatilho_semantico ≠ [] ∧ (∀ r ∈ e.gatilho_semantico, r ∉ tagsAtuais gs) ∧
        80 ≤ pesoR e) := by
    rw [rejTrigger]
    simp [List.isEmpty_iff, and_assoc]
  rw [filtrar_viaveis, List.mem_filter]
  simp only [he, true_and]
  rw [viable, h1, h2, h3]
  simp only [Bool.not_false, Bool.true_and, Bool.and_eq_true, Bool.not_eq_true',
    Bool.eq_false_iff, true_and]
  exact not_congr hiff

/-- Witness for C6: a drama-79 event with an unmet trigger still passes the
filter on a neutral state. -/
theorem semantic_trigger_soft_gate_witness :
    ev_soft ∈ filtrar_viaveis [ev_soft] gs_neutral :=
  (semantic_trigger_soft_gate [ev_soft] gs_neutral ev_soft (by decide) (by decide)
      (by decide) (by decide)).mpr (by decide)

/-- Counterexample for claim C1: the emergency path does not prefer
`management`-themed events.  On the concrete two-event catalog
`[ev_mgmt, ev_war]` and state `gs_cex`, the rule filter returns the empty
set and a management-themed (`gestao`) event is present, yet the static
selection path (`_choose_static_event`, whose every branch draws uniformly
from the whole catalog) returns the war event for draw index 1. -/
theorem director_no_management_preference_cex :
    filtrar_viaveis [ev_mgmt, ev_war] gs_cex = [] ∧
    temaR ev_mgmt = "gestao" ∧
    choose_static_event [ev_mgmt, ev_war] 1 = some ev_war ∧
    temaR ev_war ≠ "gestao" := by
  refine ⟨by decide, by decide, rfl, by decide⟩

/-- Claim C1 (amended): director liveness without a management preference.
`_choose_static_event` returns a concrete catalog event for every draw as
long as the catalog is non-empty, and every catalog event -- management or
not -- is a possible outcome of the draw. -/
theorem director_always_returns_catalog_event :
    (∀ (events : List Event) (rng : Nat), events ≠ [] →
      ∃ e, choose_static_event events rng = some e ∧ e ∈ events) ∧
    (∀ (events : List Event) (e : Event), e ∈ events →
      ∃ rng, choose_static_event events rng = some e) := by
  constructor
  · intro events rng h
    have hlen : 0 < events.length := List.length_pos.mpr h
    have hm : rng % events.length < events.length := Nat.mod_lt _ hlen
    exact ⟨events[rng % events.length],
      by rw [choose_static_event, random_choice, List.getElem?_eq_getElem hm],
      List.getElem_mem hm⟩
  · intro events e he
    obtain ⟨i, hi, hgi⟩ := List.mem_iff_getElem.mp he
    refine ⟨i, ?_⟩
    rw [choose_static_event, random_choice, Nat.mod_eq_of_lt hi,
      List.getElem?_eq_getElem hi, hgi]

/-- Witness for C1 (amended), on a singleton catalog and on the war event
of the two-event catalog. -/
theorem director_always_returns_catalog_event_witness :
    (∃ e, choose_static_event [ev_war] 0 = some e ∧ e ∈ [ev_war]) ∧
    (∃ rng, choose_static_event [ev_mgmt, ev_war] rng = some ev_war) :=
  ⟨director_always_returns_catalog_event.1 [ev_war] 0 (by decide),
   director_always_returns_catalog_event.2 [ev_mgmt, ev_war] ev_war (by decide)⟩

/-- Claim C2 (code-bug evaluation): the clamping invariant is broken by the
monolithic `GameEngine.toggle_policy` (src/engine.py line 329), whose final
`stats['stability'] -= cost_base` is not routed through `_apply_limits`.
From the monolith's own initial state (all stats in range), enacting a
policy whose activation cost is 45 stability passes both guards (stability
50 is at least the base cost 10, and 50 - 45 stays non-negative), yet the
unclamped final subtraction leaves stability at -5, outside [0, 100]. -/
theorem toggle_policy_stability_escapes_range :
    (∀ kv ∈ st_mono.stats, 0 ≤ kv.2 ∧ kv.2 ≤ 100) ∧
    (toggle_policy_mono db_feast st_mono ("grand_feast")).map
      (fun s => getStat s.stats ("stability")) = Except.ok (-5) ∧
    ¬(0 ≤ (-5 : Int)) :=
  ⟨by decide, rfl, by decide⟩

/-- Claim C8: anti-softlock escape.  For every pending non-game-over event
all of whose options fail the resource validation, the prepared option list
contains the synthesized `COLLAPSE` option, which is not blocked and
carries the stability/popularity penalty, so at least one unblocked option
is always shown. -/
theorem softlock_escape_option :
    ∀ (s : Stats) (ev : Event), ev.id ≠ 99999 →
      (∀ op ∈ ev.options, validate_option_resources s op = false) →
      collapse_option ∈ prepare_event_options s ev ∧
      collapse_option.blocked = false ∧
      collapse_option.effect = [("stability", -15), ("popularity", -10)] ∧
      ∃ op ∈ prepare_event_options s ev, op.blocked = false := by
  intro s ev hid hall
  have hblk : ((ev.options.map (annotate_option s)).all (fun o => o.blocked)) = true := by
    rw [List.all_eq_true]
    intro o ho
    obtain ⟨op, hop, rfl⟩ := List.mem_map.mp ho
    simp [annotate_option, hall op hop]
  have hres : prepare_event_options s ev =
      ev.options.map (annotate_option s) ++ [collapse_option] := by
    rw [prepare_event_options, if_neg (by simpa using hid), if_pos hblk]
  refine ⟨?_, rfl, rfl, collapse_option, ?_, rfl⟩
  · rw [hres]
    exact List.mem_append_right _ (List.mem_singleton.mpr rfl)
  · rw [hres]
    exact List.mem_append_right _ (List.mem_singleton.mpr rfl)

/-- Witness for C8 on a concrete event whose two options each cost 200
treasury against 50 in stock. -/
theorem softlock_escape_option_witness :
    collapse_option ∈ prepare_event_options (reset_state db_res).stats ev_block ∧
    collapse_option.blocked = false ∧
    collapse_option.effect = [("stability", -15), ("popularity", -10)] ∧
    ∃ op ∈ prepare_event_options (reset_state db_res).stats ev_block, op.blocked = false :=
  softlock_escape_option (reset_state db_res).stats ev_block (by decide) (by decide)

/-- Claim C3: no ghost reputation tags.  A successful `toggle_policy` never
copies tags into the permanent `event_tags` storage; enacting a policy
makes each of its permanent tags appear in the reputation-tag set; and
revoking it removes a tag granted by no other source (not in `event_tags`
and in no other active policy's permanent tags) from the very next
computation of `get_reputation_tags`. -/
theorem no_ghost_reputation_tags :
    ∀ (db : DB) (st : EngState) (pid : String) (pol : Policy) (st' : EngState),
      findPolicy db pid = some pol →
      toggle_policy db st pid = Except.ok st' →
      st'.event_tags = st.event_tags ∧
      (pid ∉ st.active_policies →
        ∀ T ∈ pol.permanent_tags, T ∈ get_reputation_tags db st') ∧
      (pid ∈ st.active_policies → st.active_policies.count pid ≤ 1 →
        ∀ T, T ∉ st.event_tags →
          (∀ qid ∈ st.active_policies, qid ≠ pid → T ∉ lawTagsOf db qid) →
          T ∉ get_reputation_tags db st') := by
  intro db st pid pol st' hfind htog
  rw [toggle_policy] at htog
  by_cases hgo : st.game_over
  · rw [if_pos hgo] at htog
    exact absurd htog (by simp)
  rw [if_neg hgo] at htog
  simp only [hfind] at htog
  by_cases hstab : getStat st.stats ("stability") < toggle_cost db st pol
  · rw [if_pos hstab] at htog
    exact absurd htog (by simp)
  rw [if_neg hstab] at htog
  by_cases hact : st.active_policies.contains pid
  · -- revoke branch
    rw [if_pos hact] at htog
    injection htog with htog
    subst htog
    refine ⟨by simp [finish_toggle, revoke_policy], ?_, ?_⟩
    · intro hnot
      exact absurd (by simpa using hact) hnot
    · intro _ hcount T hTev hTlaw hTrep
      rw [get_reputation_tags, List.mem_dedup] at hTrep
      rcases List.mem_append.mp hTrep with h | h
      · exact hTev (by simpa [finish_toggle, revoke_policy] using h)
      · have h' : T ∈ get_law_tags db (st.active_policies.erase pid) := by
          simpa [finish_toggle, revoke_policy] using h
        obtain ⟨qid, hq, hT⟩ := (mem_law_tags_iff db _ T).mp h'
        by_cases hqp : qid = pid
        · subst hqp
          have h0 : List.count qid (st.active_policies.erase qid) = 0 := by
            have hce := List.count_erase_self qid st.active_policies
            omega
          exact absurd hq (List.count_eq_zero.mp h0)
        · exact hTlaw qid (List.mem_of_mem_erase hq) hqp hT
  · -- enact branch
    rw [if_neg hact] at htog
    by_cases hcost : cost_unaffordable st.stats pol.activation_cost
    · rw [if_pos hcost] at htog
      exact absurd htog (by simp)
    rw [if_neg hcost] at htog
    injection htog with htog
    subst htog
    refine ⟨by simp [finish_toggle, enact_policy], ?_, ?_⟩
    · intro _ T hT
      rw [get_reputation_tags, List.mem_dedup]
      apply List.mem_append.mpr
      right
      have hac : (finish_toggle (enact_policy db st pid pol) (toggle_cost db st pol)
          ("Enacted: " ++ pol.name)).active_policies = st.active_policies ++ [pid] := by
        simp [finish_toggle, enact_policy]
      rw [hac]
      exact (mem_law_tags_iff db _ T).mpr
        ⟨pid, List.mem_append_right _ (by simp), by rw [lawTagsOf, hfind]; exact hT⟩
    · intro hmem
      exact absurd hmem (by simpa using hact)

/-- Witness for C3: enacting `iron_fist` on a fresh state makes `tyrant`
appear in the reputation tags, revoking it removes the tag again, and
neither toggle touches the permanent `event_tags` storage. -/
theorem no_ghost_reputation_tags_witness :
    "tyrant" ∈ get_reputation_tags db_iron st_iron₂ ∧
    "tyrant" ∉ get_reputation_tags db_iron st_iron₃ ∧
    st_iron₂.event_tags = st_iron.event_tags ∧
    st_iron₃.event_tags = st_iron₂.event_tags := by
  have h₂ : toggle_policy db_iron st_iron ("iron_fist") = Except.ok st_iron₂ := by rfl
  have h₃ : toggle_policy db_iron st_iron₂ ("iron_fist") = Except.ok st_iron₃ := by rfl
  have w₂ := no_ghost_reputation_tags db_iron st_iron ("iron_fist") pol_iron st_iron₂ rfl h₂
  have w₃ := no_ghost_reputation_tags db_iron st_iron₂ ("iron_fist") pol_iron st_iron₃ rfl h₃
  refine ⟨w₂.2.1 (by decide) ("tyrant") (by decide), ?_, w₂.1, w₃.1⟩
  refine w₃.2.2 (by decide) (by decide) ("tyrant") (by decide) ?_
  intro qid hq hne
  have hact : st_iron₂.active_policies = ["iron_fist"] := by rfl
  rw [hact] at hq
  simp at hq
  exact absurd hq hne

/-- Members of the accumulator survive `add_event_tags`. -/
theorem mem_add_event_tags_of_mem_left :
    ∀ (tags cur : List String) (x : String), x ∈ cur → x ∈ add_event_tags cur tags := by
  intro tags
  induction tags with
  | nil => intro cur x hx; exact hx
  | cons t ts ih =>
    intro cur x hx
    rw [add_event_tags, List.foldl_cons]
    by_cases hc : cur.contains t
    · rw [if_pos hc]
      exact ih cur x hx
    · rw [if_neg hc]
      exact ih (cur ++ [t]) x (List.mem_append_left _ hx)

/-- Every tag pushed through `add_event_tags` ends up in the result. -/
theorem mem_add_event_tags_of_mem :
    ∀ (tags cur : List String) (t : String), t ∈ tags → t ∈ add_event_tags cur tags := by
  intro tags
  induction tags with
  | nil => intro cur t ht; cases ht
  | cons a ts ih =>
    intro cur t ht
    rw [add_event_tags, List.foldl_cons]
    rcases List.mem_cons.mp ht with rfl | hts
    · by_cases hc : cur.contains t
      · rw [if_pos hc]
        exact mem_add_event_tags_of_mem_left ts cur t (by simpa using hc)
      · rw [if_neg hc]
        exact mem_add_event_tags_of_mem_left ts (cur ++ [t]) t
          (List.mem_append_right _ (List.mem_singleton.mpr rfl))
    · by_cases hc : cur.contains a
      · rw [if_pos hc]
        exact ih cur t hts
      · rw [if_neg hc]
        exact ih (cur ++ [a]) t hts

/-- Normal-form of a successful, non-reset, non-collapse event
resolution. -/
theorem resolve_event_success_eq (db : DB) (st : EngState) (eid : Nat) (oid : String)
    (ev : Event) (op : EvOption)
    (h99 : eid ≠ 99999) (hrs : oid ≠ "RESET") (hcol : oid ≠ "COLLAPSE")
    (hlook : lookup_resolving_event db st eid = some ev)
    (hopt : ev.options.find? (fun o => o.id == oid) = some op)
    (hval : validate_option_resources st.stats op = true) :
    resolve_event db st eid oid =
      ({ st with
          stats := op.effect.foldl (fun acc kv => update_stat acc kv.1 kv.2) st.stats,
          event_tags := add_event_tags st.event_tags op.effect_tags,
          decision_memory := add_to_decision_memory st.decision_memory
            (decision_text st.turn ev.title op.text op.effect_tags),
          theme_history := add_to_theme_history st.theme_history (themeE ev),
          log := st.log ++ ["Decision: " ++ op.text],
          last_event := none }, RStatus.ok) := by
  rw [resolve_event, if_neg (by simp [h99, hrs]), if_neg (by simp [hcol])]
  simp only [hlook, hopt]
  rw [if_pos hval]

/-- Helper: `check_game_over` never touches the theme history. -/
theorem check_game_over_theme (st : EngState) :
    (check_game_over st).1.theme_history = st.theme_history := by
  rw [check_game_over]
  by_cases h : st.game_over
  · rw [if_pos h]
  · rw [if_neg h]
    cases hc : game_over_cause st.stats <;> simp

/-- Counterexample for claim C9: the theme of the chosen event is NOT
appended to the persistent theme history during turn processing.  On a
fresh state, `process_turn` stores `ev_chosen` as the pending event but
leaves `theme_history` empty, where the claim requires the chosen theme to
be appended at selection time. -/
theorem theme_history_not_appended_at_selection_cex :
    (process_turn db_res (reset_state db_res) ev_chosen).1.theme_history = [] ∧
    (reset_state db_res).theme_history ++ [themeE ev_chosen] = ["war"] ∧
    (process_turn db_res (reset_state db_res) ev_chosen).1.theme_history ≠
      (reset_state db_res).theme_history ++ [themeE ev_chosen] :=
  ⟨rfl, rfl, by decide⟩

/-- Claim C9 (amended): the theme of the resolved event is appended to the
persistent theme history when the player resolves it
(`EventManager.resolve_event`), not when the Director selects it
(`process_turn` leaves the history unchanged for every state and chosen
event), and each append keeps the history bounded by 8, with the new theme
as its last entry. -/
theorem theme_history_appended_at_resolution :
    (∀ (db : DB) (st : EngState) (chosen : Event),
      (process_turn db st chosen).1.theme_history = st.theme_history) ∧
    (∀ (db : DB) (st : EngState) (eid : Nat) (oid : String) (ev : Event) (op : EvOption)
        (st' : EngState),
      eid ≠ 99999 → oid ≠ "RESET" → oid ≠ "COLLAPSE" →
      lookup_resolving_event db st eid = some ev →
      ev.options.find? (fun o => o.id == oid) = some op →
      validate_option_resources st.stats op = true →
      resolve_event db st eid oid = (st', RStatus.ok) →
      st'.theme_history = add_to_theme_history st.theme_history (themeE ev)) ∧
    (∀ (hist : List String) (th : String), hist.length ≤ 8 →
      (add_to_theme_history hist th).length ≤ 8 ∧
      (add_to_theme_history hist th).getLast? = some th) := by
  refine ⟨?_, ?_, ?_⟩
  · intro db st chosen
    rw [process_turn]
    by_cases hgo : st.game_over
    · rw [if_pos hgo]
    · rw [if_neg hgo]
      dsimp only
      rw [check_game_over_theme]
  · intro db st eid oid ev op st' h99 hrs hcol hlook hopt hval hres
    rw [resolve_event_success_eq db st eid oid ev op h99 hrs hcol hlook hopt hval] at hres
    rw [Prod.mk.injEq] at hres
    rw [← hres.1]
  · intro hist th hlen
    rw [add_to_theme_history]
    by_cases h : (hist ++ [th]).length > 8
    · rw [if_pos h]
      constructor
      · simp only [List.length_tail, List.length_append, List.length_singleton]
        omega
      · cases hist with
        | nil => simp at h
        | cons x xs =>
          rw [List.cons_append, List.tail_cons, List.getLast?_concat]
    · rw [if_neg h]
      exact ⟨by simp at h ⊢; omega, List.getLast?_concat _⟩

/-- Witness for C9 (amended) at the concrete resolution of `ev_res` and a
concrete turn. -/
theorem theme_history_appended_at_resolution_witness :
    st_res₂.theme_history = add_to_theme_history st_res.theme_history (themeE ev_res) ∧
    (process_turn db_res st_res ev_chosen).1.theme_history = st_res.theme_history ∧
    (add_to_theme_history ["a", "b", "c", "d", "e", "f", "g", "h"] ("war")).length ≤ 8 :=
  ⟨theme_history_appended_at_resolution.2.1 db_res st_res 42 ("A") ev_res op_res st_res₂
      (by decide) (by decide) (by decide) rfl rfl (by decide) rfl,
   theme_history_appended_at_resolution.1 db_res st_res ev_chosen,
   (theme_history_appended_at_resolution.2.2 ["a", "b", "c", "d", "e", "f", "g", "h"]
      ("war") (by decide)).1⟩

/-- Claim C10: `resolve_event` is not restricted to the pending event.
When the submitted id differs from the pending event's id (or there is no
pending event), the engine falls back to the catalog; if it finds the event
and the option there and the resources suffice, it applies that event's
effects and tags and clears the pending event, returning ok rather than an
error. -/
theorem resolve_event_catalog_fallback :
    ∀ (db : DB) (st : EngState) (eid : Nat) (oid : String) (ev : Event) (op : EvOption),
      eid ≠ 99999 → oid ≠ "RESET" → oid ≠ "COLLAPSE" →
      (∀ le, st.last_event = some le → le.id ≠ eid) →
      findEvent db eid = some ev →
      ev.options.find? (fun o => o.id == oid) = some op →
      validate_option_resources st.stats op = true →
      ∃ st', resolve_event db st eid oid = (st', RStatus.ok) ∧
        st'.last_event = none ∧
        st'.stats = op.effect.foldl (fun acc kv => update_stat acc kv.1 kv.2) st.stats ∧
        ∀ t ∈ op.effect_tags, t ∈ st'.event_tags := by
  intro db st eid oid ev op h99 hrs hcol hpend hfind hopt hval
  have hlook : lookup_resolving_event db st eid = some ev := by
    rw [lookup_resolving_event]
    cases hle : st.last_event with
    | none => exact hfind
    | some le =>
      have hne : (le.id == eid) = false := by simp [hpend le hle]
      simpa [hne] using hfind
  refine ⟨_, resolve_event_success_eq db st eid oid ev op h99 hrs hcol hlook hopt hval,
    rfl, rfl, ?_⟩
  intro t ht
  exact mem_add_event_tags_of_mem op.effect_tags st.event_tags t ht

/-- Witness for C10: resolving catalog event 42 while event 7 is pending
succeeds, clears the pending event, pays the treasury cost and grants the
tag. -/
theorem resolve_event_catalog_fallback_witness :
    ∃ st', resolve_event db_res st_res 42 ("A") = (st', RStatus.ok) ∧
      st'.last_event = none ∧
      st'.stats = op_res.effect.foldl (fun acc kv => update_stat acc kv.1 kv.2) st_res.stats ∧
      ∀ t ∈ op_res.effect_tags, t ∈ st'.event_tags :=
  resolve_event_catalog_fallback db_res st_res 42 ("A") ev_res op_res
    (by decide) (by decide) (by decide)
    (by
      intro le hle
      have : le = ev_pending := by
        have h : st_res.last_event = some ev_pending := rfl
        rw [h] at hle
        exact (Option.some.inj hle).symm
      rw [this]
      decide)
    rfl rfl (by decide)

/-- Claim C7: arbiter parsing and failure absorption.
`selecionar_evento` is a total function into `Option Event` (no outcome of
the model call can escape as an exception): an absent model or a raised
model call yield `none`; given a reply, the explicit `Escolha:` marker is
consulted first and otherwise the last standalone number in the text, the
extracted 1-based index is mapped into the shortlist, and an absent,
zero, or out-of-range index yields `none`; a valid index within the
shortlist bounds returns exactly the corresponding entry. -/
theorem arbiter_parsing_and_absorption :
    (∀ cands : List Event, selecionar_evento none cands = none) ∧
    (∀ cands : List Event, selecionar_evento (some (Except.error ())) cands = none) ∧
    (∀ (text : List Char) (cands : List Event) (n : Nat),
      find_marker_num text = some n →
      selecionar_evento (some (Except.ok text)) cands =
        if n == 0 then none else cands[n - 1]?) ∧
    (∀ (text : List Char) (cands : List Event) (n : Nat),
      find_marker_num text = none → last_standalone text = some n →
      selecionar_evento (some (Except.ok text)) cands =
        if n == 0 then none else cands[n - 1]?) ∧
    (∀ (text : List Char) (cands : List Event),
      find_marker_num text = none → last_standalone text = none →
      selecionar_evento (some (Except.ok text)) cands = none) ∧
    (∀ (n : Nat) (cands : List Event), 1 ≤ n → n ≤ cands.length →
      ∃ e, cands[n - 1]? = some e ∧ e ∈ cands) ∧
    (∀ (n : Nat) (cands : List Event), cands.length < n → cands[n - 1]? = none) := by
  refine ⟨fun cands => ?_, fun cands => ?_, ?_, ?_, ?_, ?_, ?_⟩
  · cases cands <;> rfl
  · cases cands <;> rfl
  · intro text cands n hm
    cases cands with
    | nil => cases n <;> simp [selecionar_evento]
    | cons c cs =>
      show extrair_decisao text (c :: cs) = _
      rw [extrair_decisao]
      simp only [hm]
  · intro text cands n hm hl
    cases cands with
    | nil => cases n <;> simp [selecionar_evento]
    | cons c cs =>
      show extrair_decisao text (c :: cs) = _
      rw [extrair_decisao]
      simp only [hm, hl]
  · intro text cands hm hl
    cases cands with
    | nil => rfl
    | cons c cs =>
      show extrair_decisao text (c :: cs) = _
      rw [extrair_decisao]
      simp only [hm, hl]
  · intro n cands h1 h2
    have hlt : n - 1 < cands.length := by omega
    exact ⟨cands[n - 1], List.getElem?_eq_getElem hlt, List.getElem_mem hlt⟩
  · intro n cands h
    exact List.getElem?_eq_none (by omega)

/-- Witness for C7: the marker reply picks entry 3 of the five-event
shortlist, the marker-free reply picks its last standalone number 2, the
out-of-range reply and the failing or absent model all yield `none`. -/
theorem arbiter_parsing_and_absorption_witness :
    selecionar_evento (some (Except.ok reply_marker)) cands₅ = some (mkEv 103) ∧
    selecionar_evento (some (Except.ok reply_last)) cands₅ = some (mkEv 102) ∧
    selecionar_evento (some (Except.ok reply_oor)) cands₅ = none ∧
    selecionar_evento (some (Except.error ())) cands₅ = none ∧
    selecionar_evento none cands₅ = none := by
  refine ⟨?_, ?_, ?_, arbiter_parsing_and_absorption.2.1 cands₅,
    arbiter_parsing_and_absorption.1 cands₅⟩
  · rw [arbiter_parsing_and_absorption.2.2.1 reply_marker cands₅ 3 (by decide)]
    rfl
  · rw [arbiter_parsing_and_absorption.2.2.2.1 reply_last cands₅ 2 (by decide) (by decide)]
    rfl
  · rw [arbiter_parsing_and_absorption.2.2.1 reply_oor cands₅ 9 (by decide)]
    rfl
